import Mathlib

/-!
Shallow embedding of the block/transaction verification orchestrator of
`src/verification/src/chain_verifier.rs` (`BackwardsCompatibleChainVerifier`).

Only `chain_verifier.rs` is provided as source; the collaborators it calls
(chain store, structural verifiers, contextual acceptors, deployment tracker,
output resolver) are modelled from the specification, each marked
`Modelled from the spec:` in its doc comment.  Machine integers are modelled
as `Nat` (no arithmetic in the orchestrator overflows).
-/

/-- Reference to a previous transaction output: transaction id plus index
(identity hashes are modelled as `Nat`). -/
structure OutPoint where
  hash : Nat
  index : Nat
deriving DecidableEq

/-- A transaction input: the outpoint it spends plus unlock data, the latter
abstracted to the signature-operation count it contributes. -/
structure TransactionInput where
  previous_output : OutPoint
  script_sigops : Nat
deriving DecidableEq

/-- A transaction output: value (the lock script is irrelevant to the
orchestrator-level claims). -/
structure TransactionOutput where
  value : Nat
deriving DecidableEq

/-- A transaction with its cached content-addressed identity hash. -/
structure Transaction where
  hash : Nat
  inputs : List TransactionInput
  outputs : List TransactionOutput
deriving DecidableEq

/-- A block header: parent hash and timestamp (the fields the orchestrator
inspects). -/
structure BlockHeader where
  previous_header_hash : Nat
  time : Nat
deriving DecidableEq

/-- `IndexedBlock`: header plus ordered transactions, with a cached hash. -/
structure IndexedBlock where
  hash : Nat
  header : BlockHeader
  transactions : List Transaction
deriving DecidableEq

/-- Decidable equality of results. -/
instance {ε α : Type} [DecidableEq ε] [DecidableEq α] : DecidableEq (Except ε α) :=
  fun x y =>
  match x, y with
  | Except.ok a, Except.ok b =>
    if h : a = b then Decidable.isTrue (congrArg Except.ok h)
    else Decidable.isFalse (fun hh => h (Except.ok.inj hh))
  | Except.ok _, Except.error _ => Decidable.isFalse (fun hh => Except.noConfusion hh)
  | Except.error _, Except.ok _ => Decidable.isFalse (fun hh => Except.noConfusion hh)
  | Except.error e, Except.error f =>
    if h : e = f then Decidable.isTrue (congrArg Except.error h)
    else Decidable.isFalse (fun hh => h (Except.error.inj hh))

/-- Sum of a transaction's output values. -/
def outputsSum (tx : Transaction) : Nat :=
  (tx.outputs.map (fun o => o.value)).sum

/-- Store/database errors (`db::Error`). -/
inductive DBError where
  | UnknownParent
  | AncientFork
deriving DecidableEq

/-- Per-transaction error kinds (`TransactionError`), the subset evidenced by
the spec plus the model's resolution-failure and structural kinds. -/
inductive TransactionError where
  | Maturity
  | Overspend
  | Missing
  | Empty
  | DuplicateInputs
  | ValueOverflow
deriving DecidableEq

/-- The public error taxonomy (`Error`). -/
inductive Error where
  | Database (e : DBError)
  | Transaction (index : Nat) (e : TransactionError)
  | MaximumSigops
  | CoinbaseOverspend (expected_max : Nat) (actual : Nat)
  | Timestamp
  | Empty
deriving DecidableEq

/-- Verification level (`VerificationLevel`): Full, Header, NoVerification. -/
inductive VerificationLevel where
  | Full
  | Header
  | NoVerification
deriving DecidableEq

/-- Network identity (`Magic`), the part of `ConsensusParams` the structural
checks receive. -/
inductive Network where
  | Unitest
  | Mainnet
deriving DecidableEq

/-- Network consensus parameters (`ConsensusParams`). -/
structure ConsensusParams where
  network : Network
deriving DecidableEq

/-- Modelled from the spec: a deployment snapshot resolved for one height
(`BlockDeployments`), "a pure height-indexed function result"; activation
predicates of the form "active once height ≥ threshold". -/
structure BlockDeployments where
  block_number : Nat
  csv_active : Bool
deriving DecidableEq

/-- Modelled from the spec: height threshold for the illustrative height-gated
deployment, per network. -/
def csv_threshold (n : Network) : Nat :=
  match n with
  | Network.Unitest => 0
  | Network.Mainnet => 419328

/-- Modelled from the spec: `BlockDeployments::new` — resolve the deployment
snapshot for one height against the header history (`Deployments` cache and
signalling-based predicates are not in src; the snapshot is a pure function of
height and consensus parameters). -/
def block_deployments (block_number : Nat) (header_provider : Nat → Option BlockHeader)
    (consensus : ConsensusParams) : BlockDeployments :=
  { block_number := block_number
    csv_active := decide (csv_threshold consensus.network ≤ block_number) }

/-- Metadata of a confirmed transaction: confirming height and whether it is a
coinbase (`TransactionMeta`). -/
structure TxMeta where
  height : Nat
  is_coinbase : Bool
deriving DecidableEq

/-- A resolved confirmed output together with the coinbase metadata the
maturity rule needs. -/
structure UtxoInfo where
  value : Nat
  is_coinbase : Bool
  height : Nat
deriving DecidableEq

/-- Sum of resolved output values. -/
def valuesSum (l : List UtxoInfo) : Nat :=
  (l.map (fun u => u.value)).sum

/-- A read-through view of chain state used by contextual acceptance: resolve
an outpoint to the output it spends (plus coinbase metadata). -/
structure StoreView where
  output : OutPoint → Option UtxoInfo

/-- Modelled from the spec: resolve an outpoint by scanning an ordered list of
blocks (list position = height); the first transaction of each block is its
coinbase. -/
def view_of_blocks (blocks : List IndexedBlock) : StoreView :=
  ⟨fun op =>
    blocks.enum.findSome? (fun hb =>
      hb.2.transactions.enum.findSome? (fun jt =>
        if jt.2.hash == op.hash then
          (jt.2.outputs.get? op.index).map (fun o => ⟨o.value, jt.1 == 0, hb.1⟩)
        else none))⟩

/-- Best tip: height plus hash (`BestBlock`). -/
structure BestBlock where
  number : Nat
  hash : Nat
deriving DecidableEq

/-- Modelled from the spec: a stored side-chain block together with its height
and the fork descriptor data of its branch. -/
structure SideEntry where
  number : Nat
  ancestor : Nat
  route : List IndexedBlock
  block : IndexedBlock
deriving DecidableEq

/-- Modelled from the spec: the chain store — canonical chain (list position =
height), known side-chain blocks, and the designated best tip. -/
structure Store where
  canon : List IndexedBlock
  side : List SideEntry
  best : BestBlock

/-- `Store::best_block`. -/
def Store.best_block (S : Store) : BestBlock := S.best

/-- `Store::block_hash`: hash of the canonical block at a height. -/
def Store.block_hash (S : Store) (number : Nat) : Option Nat :=
  (S.canon.get? number).map (fun b => b.hash)

/-- The best-tip consistency assertion of `verify_block`:
`assert_eq!(Some(store.best_block().hash), store.block_hash(store.best_block().number))`. -/
def check_tip (S : Store) : Bool :=
  Store.block_hash S (Store.best_block S).number == some (Store.best_block S).hash

/-- Modelled from the spec: is the hash already present in the store? -/
def is_known (S : Store) (h : Nat) : Bool :=
  S.canon.any (fun b => b.hash == h) || S.side.any (fun e => e.block.hash == h)

/-- Modelled from the spec: height of the canonical block with a given hash. -/
def find_canon_height (S : Store) (h : Nat) : Option Nat :=
  (S.canon.enum.find? (fun q => q.2.hash == h)).map (fun q => q.1)

/-- Modelled from the spec: the stored side-chain entry with a given hash. -/
def find_side (S : Store) (h : Nat) : Option SideEntry :=
  S.side.find? (fun e => e.block.hash == h)

/-- Fork descriptor (`SideChainOrigin`): resolved height of the candidate,
height of the fork ancestor on the canonical chain, and the chain of pending
branch blocks from the fork point to the candidate's parent. -/
structure SideChainOrigin where
  block_number : Nat
  ancestor : Nat
  route : List IndexedBlock
deriving DecidableEq

/-- Block origin classification (`BlockOrigin`). -/
inductive BlockOrigin where
  | KnownBlock
  | CanonChain (block_number : Nat)
  | SideChain (origin : SideChainOrigin)
  | SideChainBecomingCanonChain (origin : SideChainOrigin)
deriving DecidableEq

/-- Modelled from the spec: `Store::block_origin` — Known if the hash is
already present; canon-chain extension if the parent is the best tip; a side
chain origin (becoming canon when its resolved height exceeds the best tip's)
if the parent is found elsewhere; otherwise the unknown-parent error. -/
def block_origin (S : Store) (hash : Nat) (header : BlockHeader) : Except Error BlockOrigin :=
  if is_known S hash then Except.ok BlockOrigin.KnownBlock
  else if header.previous_header_hash == S.best.hash then
    Except.ok (BlockOrigin.CanonChain (S.best.number + 1))
  else
    match find_canon_height S header.previous_header_hash with
    | some k =>
      if S.best.number < k + 1 then
        Except.ok (BlockOrigin.SideChainBecomingCanonChain ⟨k + 1, k, []⟩)
      else
        Except.ok (BlockOrigin.SideChain ⟨k + 1, k, []⟩)
    | none =>
      match find_side S header.previous_header_hash with
      | some e =>
        if S.best.number < e.number + 1 then
          Except.ok (BlockOrigin.SideChainBecomingCanonChain
            ⟨e.number + 1, e.ancestor, e.route ++ [e.block]⟩)
        else
          Except.ok (BlockOrigin.SideChain ⟨e.number + 1, e.ancestor, e.route ++ [e.block]⟩)
      | none => Except.error (Error.Database DBError.UnknownParent)

/-- `Store::as_block_header_provider`: header history view over the canonical
chain. -/
def Store.header_provider (S : Store) : Nat → Option BlockHeader :=
  fun n => (S.canon.get? n).map (fun b => b.header)

/-- The main store as the view contextual acceptance reads. -/
def Store.as_view (S : Store) : StoreView :=
  view_of_blocks S.canon

/-- `Store::as_transaction_meta_provider`. -/
def Store.meta_provider (S : Store) : Nat → Option TxMeta :=
  fun h =>
    S.canon.enum.findSome? (fun hb =>
      hb.2.transactions.enum.findSome? (fun jt =>
        if jt.2.hash == h then some ⟨hb.1, jt.1 == 0⟩ else none))

/-- Modelled from the spec: `Store::fork` — materialize a fork overlay, "a
layered store = Chain Store + pending side-chain blocks"; fails when the
descriptor's ancestor is not on the canonical chain. -/
def Store.fork (S : Store) (o : SideChainOrigin) : Except Error StoreView :=
  if S.canon.length ≤ o.ancestor then Except.error (Error.Database DBError.AncientFork)
  else Except.ok (view_of_blocks (S.canon.take (o.ancestor + 1) ++ o.route))

/-- Maximum tolerated distance of a header timestamp into the future. -/
def BLOCK_MAX_FUTURE : Nat := 7200

/-- Modelled from the spec: `ChainVerifier::check` — block-level structural
verification, a pure function of the block, network parameters and the given
wall-clock timestamp (illustrative subset: non-empty transaction list,
timestamp drift bound). -/
def chain_verifier_check (blk : IndexedBlock) (network : Network) (now : Nat) :
    Except Error Unit :=
  if blk.transactions.isEmpty then Except.error Error.Empty
  else if now + BLOCK_MAX_FUTURE < blk.header.time then Except.error Error.Timestamp
  else Except.ok ()

/-- Modelled from the spec: `HeaderVerifier::check` — structural header
verification only (timestamp drift bound as the illustrative rule), a pure
function of the header, network parameters and the given timestamp. -/
def header_verifier_check (hash : Nat) (header : BlockHeader) (network : Network)
    (now : Nat) : Except Error Unit :=
  if now + BLOCK_MAX_FUTURE < header.time then Except.error Error.Timestamp
  else Except.ok ()

/-- Coinbase maturity depth constant. -/
def COINBASE_MATURITY : Nat := 100

/-- Whole-block signature-operation cap. -/
def max_block_sigops : Nat := 80000

/-- Block subsidy at a height. -/
def block_reward (height : Nat) : Nat :=
  5000000000 / 2 ^ (height / 210000)

/-- Signature operations contributed by one transaction's unlock scripts. -/
def tx_sigops (tx : Transaction) : Nat :=
  (tx.inputs.map (fun i => i.script_sigops)).sum

/-- Signature operations of a list of transactions. -/
def sigopsSum (txs : List Transaction) : Nat :=
  (txs.map tx_sigops).sum

/-- Modelled from the spec: resolve one input of the transaction at index `i`
of the candidate block — first against outputs produced by earlier
transactions of the same block (exposed by the resolver though not yet
chain-committed, at the candidate's height), then against the store view. -/
def resolve_input (view : StoreView) (blk : IndexedBlock) (height i : Nat)
    (inp : TransactionInput) : Option UtxoInfo :=
  match (blk.transactions.take i).enum.find? (fun jt => jt.2.hash == inp.previous_output.hash) with
  | some jt =>
    (jt.2.outputs.get? inp.previous_output.index).map
      (fun o => ⟨o.value, jt.1 == 0, height⟩)
  | none => view.output inp.previous_output

/-- Resolution of every input of the transaction at index `i`. -/
def tx_resolution (view : StoreView) (blk : IndexedBlock) (height i : Nat)
    (tx : Transaction) : Option (List UtxoInfo) :=
  tx.inputs.mapM (resolve_input view blk height i)

/-- Modelled from the spec: the per-transaction contextual checks, in order —
resolve every input (failure: Missing), enforce coinbase maturity (failure:
Maturity), compare summed outputs against summed resolved inputs (failure:
Overspend) — each tagged with the transaction's index. -/
def tx_accept_check (view : StoreView) (blk : IndexedBlock) (height i : Nat)
    (tx : Transaction) : Except Error Unit :=
  match tx_resolution view blk height i tx with
  | none => Except.error (Error.Transaction i TransactionError.Missing)
  | some utxos =>
    if utxos.any (fun u => u.is_coinbase && height < u.height + COINBASE_MATURITY) then
      Except.error (Error.Transaction i TransactionError.Maturity)
    else if valuesSum utxos < outputsSum tx then
      Except.error (Error.Transaction i TransactionError.Overspend)
    else Except.ok ()

/-- Modelled from the spec: the acceptance loop over the block's transactions
in block order, starting at index `i` with `s` script operations already
accumulated; the coinbase (index 0) is exempt from the per-transaction spend
checks; the running sigop count fails the whole block once it exceeds the
cap. -/
def accept_txs (view : StoreView) (blk : IndexedBlock) (height maxSigops : Nat) :
    Nat → Nat → List Transaction → Except Error Unit
  | _, _, [] => Except.ok ()
  | i, s, tx :: rest =>
    match (if i = 0 then Except.ok () else tx_accept_check view blk height i tx) with
    | Except.error e => Except.error e
    | Except.ok _ =>
      if maxSigops < s + tx_sigops tx then Except.error Error.MaximumSigops
      else accept_txs view blk height maxSigops (i + 1) (s + tx_sigops tx) rest

/-- Implicit fee of the transaction at index `j` (resolved inputs minus
outputs). -/
def tx_fee (view : StoreView) (blk : IndexedBlock) (height j : Nat)
    (tx : Transaction) : Nat :=
  match tx_resolution view blk height j tx with
  | some utxos => valuesSum utxos - outputsSum tx
  | none => 0

/-- Total fees collected from the non-coinbase transactions of the block. -/
def total_fees (view : StoreView) (blk : IndexedBlock) (height : Nat) : Nat :=
  (blk.transactions.enum.map
    (fun jt => if jt.1 = 0 then 0 else tx_fee view blk height jt.1 jt.2)).sum

/-- Modelled from the spec: the coinbase's total output value must not exceed
the height-appropriate subsidy plus the fees of the other transactions;
violation carries both the computed cap and the actual value. -/
def coinbase_cap_check (view : StoreView) (blk : IndexedBlock) (height : Nat) :
    Except Error Unit :=
  match blk.transactions.get? 0 with
  | none => Except.ok ()
  | some cb =>
    if block_reward height + total_fees view blk height < outputsSum cb then
      Except.error (Error.CoinbaseOverspend
        (block_reward height + total_fees view blk height) (outputsSum cb))
    else Except.ok ()

/-- Modelled from the spec: `ChainAcceptor::check` — contextual acceptance of
the candidate block against a store view at its resolved height: the
per-transaction checks with the running sigop cap, then the coinbase cap. -/
def chain_acceptor_check (view : StoreView) (consensus : ConsensusParams)
    (lvl : VerificationLevel) (blk : IndexedBlock) (height : Nat)
    (d : BlockDeployments) : Except Error Unit :=
  match accept_txs view blk height max_block_sigops 0 0 blk.transactions with
  | Except.error e => Except.error e
  | Except.ok _ => coinbase_cap_check view blk height

/-- The `BlockOrigin::CanonChain` arm of `verify_block`: build deployments at
the resolved height and run the chain acceptor directly against the main
store. -/
def canon_chain_branch (S : Store) (consensus : ConsensusParams)
    (lvl : VerificationLevel) (blk : IndexedBlock) (block_number : Nat) :
    Except Error Unit :=
  let deployments := block_deployments block_number (Store.header_provider S) consensus
  chain_acceptor_check (Store.as_view S) consensus lvl blk block_number deployments

/-- The `BlockOrigin::SideChain` arm of `verify_block`: build deployments at
the origin's block number, materialize the fork overlay, and run the chain
acceptor against the overlay store at that height. -/
def side_chain_branch (S : Store) (consensus : ConsensusParams)
    (lvl : VerificationLevel) (blk : IndexedBlock) (origin : SideChainOrigin) :
    Except Error Unit :=
  let block_number := origin.block_number
  let deployments := block_deployments block_number (Store.header_provider S) consensus
  match Store.fork S origin with
  | Except.error e => Except.error e
  | Except.ok fork => chain_acceptor_check fork consensus lvl blk block_number deployments

/-- The `BlockOrigin::SideChainBecomingCanonChain` arm of `verify_block`: the
source duplicates the side-chain arm's code verbatim — build deployments at
the origin's block number, materialize the fork overlay, and run the chain
acceptor against the overlay store at that height. -/
def side_becoming_canon_branch (S : Store) (consensus : ConsensusParams)
    (lvl : VerificationLevel) (blk : IndexedBlock) (origin : SideChainOrigin) :
    Except Error Unit :=
  let block_number := origin.block_number
  let deployments := block_deployments block_number (Store.header_provider S) consensus
  match Store.fork S origin with
  | Except.error e => Except.error e
  | Except.ok fork => chain_acceptor_check fork consensus lvl blk block_number deployments

/-- Observable result of one `verify_block` call: success, an ordinary
validation error, or a loud abort (a failed `assert_eq!` or the
`unreachable!()` arm). -/
inductive VOutcome where
  | ok
  | err (e : Error)
  | panic
deriving DecidableEq

/-- Steps of the `verify_block` pipeline, recorded in execution order:
the structural pre-verification, each best-tip consistency assertion, the
origin classification, and the origin-specific acceptance step. -/
inductive Event where
  | structural_check
  | assert_tip
  | classify_origin
  | accept
deriving DecidableEq

/-- Shared tail of the three acceptance arms: on acceptance failure the error
is returned at once (the source's `chain_acceptor.check()?`); on success the
best-tip consistency assertion at the end of `verify_block` runs before
`Ok(())`. -/
def after_accept (S : Store) (r : Except Error Unit) : VOutcome × List Event :=
  match r with
  | Except.error e =>
    (VOutcome.err e,
     [Event.structural_check, Event.assert_tip, Event.classify_origin, Event.accept])
  | Except.ok _ =>
    ((if check_tip S then VOutcome.ok else VOutcome.panic),
     [Event.structural_check, Event.assert_tip, Event.classify_origin, Event.accept,
      Event.assert_tip])

/-- `BackwardsCompatibleChainVerifier::verify_block`: short-circuit on
`NoVerification`; structural pre-verification at the clock value `now` read
inside the call; the best-tip assertion; origin classification; dispatch on
the origin (`KnownBlock` hits `unreachable!()`); acceptance; and, only after
successful acceptance, the closing best-tip assertion.  The second component
records which steps ran, in order. -/
def verify_block (S : Store) (consensus : ConsensusParams)
    (lvl : VerificationLevel) (blk : IndexedBlock) (now : Nat) :
    VOutcome × List Event :=
  if lvl = VerificationLevel.NoVerification then (VOutcome.ok, [])
  else
    match chain_verifier_check blk consensus.network now with
    | Except.error e => (VOutcome.err e, [Event.structural_check])
    | Except.ok _ =>
      if check_tip S then
        match block_origin S blk.hash blk.header with
        | Except.error e =>
          (VOutcome.err e, [Event.structural_check, Event.assert_tip, Event.classify_origin])
        | Except.ok BlockOrigin.KnownBlock =>
          (VOutcome.panic, [Event.structural_check, Event.assert_tip, Event.classify_origin])
        | Except.ok (BlockOrigin.CanonChain block_number) =>
          after_accept S (canon_chain_branch S consensus lvl blk block_number)
        | Except.ok (BlockOrigin.SideChain origin) =>
          after_accept S (side_chain_branch S consensus lvl blk origin)
        | Except.ok (BlockOrigin.SideChainBecomingCanonChain origin) =>
          after_accept S (side_becoming_canon_branch S consensus lvl blk origin)
      else (VOutcome.panic, [Event.structural_check, Event.assert_tip])

/-- `Verify::verify`: delegates to `verify_block` (the source only adds a
trace log line around the result). -/
def verify (S : Store) (consensus : ConsensusParams) (lvl : VerificationLevel)
    (blk : IndexedBlock) (now : Nat) : VOutcome × List Event :=
  verify_block S consensus lvl blk now

/-- `BackwardsCompatibleChainVerifier::verify_block_header`: structural header
verification only (the provider argument is received but never consulted —
`// TODO: full verification`), at the clock value `now` read inside the
call. -/
def verify_block_header (consensus : ConsensusParams)
    ( _block_header_provider : Nat → Option BlockHeader) (hash : Nat)
    (header : BlockHeader) (now : Nat) : Except Error Unit :=
  header_verifier_check hash header consensus.network now

/-- Modelled from the spec: `MemoryPoolTransactionVerifier::check` — purely
syntactic transaction verification against a deployment snapshot: non-empty
inputs and outputs, no duplicate inputs, output values within range. -/
def mempool_tx_verifier_check (tx : Transaction) (consensus : ConsensusParams)
    (d : BlockDeployments) : Except TransactionError Unit :=
  if tx.inputs.isEmpty then Except.error TransactionError.Empty
  else if tx.outputs.isEmpty then Except.error TransactionError.Empty
  else if (tx.inputs.map (fun i => i.previous_output)).Nodup = false then
    Except.error TransactionError.DuplicateInputs
  else if 2100000000000000 < outputsSum tx then
    Except.error TransactionError.ValueOverflow
  else Except.ok ()

/-- `NoopStore`: an output provider that never answers. -/
def noop_store : OutPoint → Option TransactionOutput :=
  fun _ => none

/-- `DuplexTransactionOutputProvider`: try the first provider, fall back to
the second. -/
def duplex_output_provider (first second : OutPoint → Option TransactionOutput) :
    OutPoint → Option TransactionOutput :=
  fun op =>
    match first op with
    | some o => some o
    | none => second op

/-- Modelled from the spec: `MemoryPoolTransactionAcceptor::check` —
contextual acceptance of a standalone transaction at a hypothetical
height/time: resolve every input through the layered output provider
(failure: Missing), enforce coinbase maturity through the confirmed-chain
metadata provider (failure: Maturity), and compare summed outputs against
summed resolved inputs (failure: Overspend). -/
def mempool_tx_acceptor_check (meta : Nat → Option TxMeta)
    (output_store : OutPoint → Option TransactionOutput)
    (consensus : ConsensusParams) (tx : Transaction) (height time : Nat)
    (d : BlockDeployments) : Except TransactionError Unit :=
  match tx.inputs.mapM (fun inp => output_store inp.previous_output) with
  | none => Except.error TransactionError.Missing
  | some outs =>
    if tx.inputs.any (fun inp =>
        match meta inp.previous_output.hash with
        | some m => m.is_coinbase && height < m.height + COINBASE_MATURITY
        | none => false) then
      Except.error TransactionError.Maturity
    else if (outs.map (fun o => o.value)).sum < outputsSum tx then
      Except.error TransactionError.Overspend
    else Except.ok ()

/-- `BackwardsCompatibleChainVerifier::verify_mempool_transaction`: resolve
the deployment snapshot for the height, run structural transaction
verification against it (failing fast), layer the caller's prevout provider
over the no-op store, and run contextual acceptance with that resolver, the
snapshot and the given height/time. -/
def verify_mempool_transaction (S : Store) (consensus : ConsensusParams)
    (block_header_provider : Nat → Option BlockHeader)
    (prevout_provider : OutPoint → Option TransactionOutput)
    (height time : Nat) (tx : Transaction) : Except TransactionError Unit :=
  let deployments := block_deployments height block_header_provider consensus
  match mempool_tx_verifier_check tx consensus deployments with
  | Except.error e => Except.error e
  | Except.ok _ =>
    let output_store := duplex_output_provider prevout_provider noop_store
    mempool_tx_acceptor_check (Store.meta_provider S) output_store consensus tx
      height time deployments

/-! ### Concrete fixtures (mirroring the source's test chains) -/

/-- Unitest consensus parameters. -/
def fxConsensus : ConsensusParams := ⟨Network.Unitest⟩

/-- A genesis block holding only a coinbase with a 50-value output. -/
def fxGenesis : IndexedBlock := ⟨100, ⟨0, 0⟩, [⟨110, [], [⟨50⟩]⟩]⟩

/-- A genesis block holding a coinbase (value 1) and a plain transaction with
a 50-value output, as in the source's same-block tests. -/
def fxGenesis2 : IndexedBlock := ⟨100, ⟨0, 0⟩, [⟨110, [], [⟨1⟩]⟩, ⟨111, [], [⟨50⟩]⟩]⟩

/-- Store holding `fxGenesis` as its only (best) block. -/
def fxStore : Store := ⟨[fxGenesis], [], ⟨0, 100⟩⟩

/-- Store holding `fxGenesis2` as its only (best) block. -/
def fxStore2 : Store := ⟨[fxGenesis2], [], ⟨0, 100⟩⟩

/-- Same-block chained spend that balances (the source's
`transaction_references_same_block_happy` block): tx 1 spends the stored
50-output into 30+20, tx 2 spends tx 1's 30-output into 30. -/
def fxHappy : IndexedBlock :=
  ⟨200, ⟨100, 0⟩,
   [⟨210, [], [⟨2⟩]⟩,
    ⟨211, [⟨⟨111, 0⟩, 0⟩], [⟨30⟩, ⟨20⟩]⟩,
    ⟨212, [⟨⟨211, 0⟩, 0⟩], [⟨30⟩]⟩]⟩

/-- Same-block chained overspend (the source's
`transaction_references_same_block_overspend` block): tx 2 spends tx 1's
19-output into 20. -/
def fxOver : IndexedBlock :=
  ⟨200, ⟨100, 0⟩,
   [⟨210, [], [⟨2⟩]⟩,
    ⟨211, [⟨⟨111, 0⟩, 0⟩], [⟨19⟩, ⟨31⟩]⟩,
    ⟨212, [⟨⟨211, 0⟩, 0⟩], [⟨20⟩]⟩]⟩

/-- A block spending the stored coinbase before maturity (the source's
`coinbase_maturity` block): contextual acceptance fails at index 1. -/
def fxMature : IndexedBlock :=
  ⟨300, ⟨100, 0⟩, [⟨310, [], [⟨1⟩]⟩, ⟨311, [⟨⟨110, 0⟩, 0⟩], [⟨2⟩]⟩]⟩

/-- An orphan block whose header timestamp lies far in the future. -/
def fxFuture : IndexedBlock := ⟨400, ⟨999, 10000⟩, [⟨410, [], [⟨1⟩]⟩]⟩

/-- A structurally invalid block (no transactions at all). -/
def fxBadBlock : IndexedBlock := ⟨500, ⟨100, 0⟩, []⟩

/-- A structurally valid block whose parent is absent from the store (the
source's `verify_orphan` scenario). -/
def fxOrphan : IndexedBlock := ⟨600, ⟨999, 0⟩, [⟨610, [], [⟨1⟩]⟩]⟩

/-- A structurally invalid block whose parent is also absent from the store. -/
def fxOrphanBad : IndexedBlock := ⟨700, ⟨999, 0⟩, []⟩

/-- A standalone transaction spending `fxGenesis2`'s 50-output. -/
def fxTx : Transaction := ⟨800, [⟨⟨111, 0⟩, 0⟩], [⟨40⟩]⟩

/-- A mempool prevout provider answering only for `fxGenesis2`'s 50-output. -/
def fxPrev : OutPoint → Option TransactionOutput :=
  fun op => if op = ⟨111, 0⟩ then some ⟨50⟩ else none

/-! ### Index-level acceptance predicates -/

/-- The transaction at an index of the candidate block. -/
def txAt (blk : IndexedBlock) (j : Nat) : Option Transaction :=
  blk.transactions.get? j

/-- Do all inputs of the transaction at index `j` resolve? -/
def resolvesAt (view : StoreView) (blk : IndexedBlock) (height j : Nat) : Bool :=
  match txAt blk j with
  | none => true
  | some tx => (tx_resolution view blk height j tx).isSome

/-- Does the transaction at index `j` spend no immature coinbase output? -/
def matureAt (view : StoreView) (blk : IndexedBlock) (height j : Nat) : Bool :=
  match txAt blk j with
  | none => true
  | some tx =>
    match tx_resolution view blk height j tx with
    | none => true
    | some utxos =>
      !(utxos.any (fun u => u.is_coinbase && height < u.height + COINBASE_MATURITY))

/-- Are the total outputs of the transaction at index `j` at most its total
resolved inputs? -/
def balancedAt (view : StoreView) (blk : IndexedBlock) (height j : Nat) : Bool :=
  match txAt blk j with
  | none => true
  | some tx =>
    match tx_resolution view blk height j tx with
    | none => true
    | some utxos => decide (outputsSum tx ≤ valuesSum utxos)

/-! ### Claim theorems -/

/-- C4: for every block, `verify(NoVerification, b)` returns `Ok(())` without
inspecting the block: the result is the same for every block and store, and
no structural check, classification, or acceptance step runs (the recorded
trace is empty). -/
theorem verify_no_verification (S : Store) (consensus : ConsensusParams)
    (blk : IndexedBlock) (now : Nat) :
    verify S consensus VerificationLevel.NoVerification blk now = (VOutcome.ok, []) :=
  rfl

/-- C3: the `SideChain` arm and the `SideChainBecomingCanonChain` arm of
`verify_block` perform the same acceptance steps (deployments at the origin's
block number, fork overlay from the origin, chain acceptor against the overlay
at that height) and produce equal results for equal origins. -/
theorem side_chain_branches_identical (S : Store) (consensus : ConsensusParams)
    (lvl : VerificationLevel) (blk : IndexedBlock) (origin : SideChainOrigin) :
    side_chain_branch S consensus lvl blk origin =
      side_becoming_canon_branch S consensus lvl blk origin :=
  rfl

/-- C10: `verify_block_header` never consults its block-header-provider
argument — any two provider values give the same result, which depends only
on the hash, the header, the consensus parameters and the clock value. -/
theorem verify_block_header_ignores_provider (consensus : ConsensusParams)
    (p1 p2 : Nat → Option BlockHeader) (hash : Nat) (header : BlockHeader)
    (now : Nat) :
    verify_block_header consensus p1 hash header now =
      verify_block_header consensus p2 hash header now :=
  rfl

/-- C6: when block-level structural verification fails, `verify` returns that
error unmodified, having run only the structural check — neither the best-tip
assertion, nor origin classification, nor acceptance appears in the trace,
and the result is the same for any two stores. -/
theorem verify_structural_error_short_circuits (S S2 : Store)
    (consensus : ConsensusParams) (lvl : VerificationLevel) (blk : IndexedBlock)
    (now : Nat) (e : Error) (hl : lvl ≠ VerificationLevel.NoVerification)
    (he : chain_verifier_check blk consensus.network now = Except.error e) :
    verify S consensus lvl blk now = (VOutcome.err e, [Event.structural_check]) ∧
    verify S consensus lvl blk now = verify S2 consensus lvl blk now := by
  unfold verify verify_block
  simp only [if_neg hl, he]
  exact ⟨trivial, trivial⟩

/-- C6 witness: a block with no transactions fails structurally with `Empty`,
which `verify` returns after the structural step alone, independently of the
store. -/
theorem verify_structural_error_short_circuits_witness :
    verify fxStore2 fxConsensus VerificationLevel.Full fxBadBlock 0 =
      (VOutcome.err Error.Empty, [Event.structural_check]) ∧
    verify fxStore2 fxConsensus VerificationLevel.Full fxBadBlock 0 =
      verify fxStore fxConsensus VerificationLevel.Full fxBadBlock 0 :=
  verify_structural_error_short_circuits fxStore2 fxStore fxConsensus
    VerificationLevel.Full fxBadBlock 0 Error.Empty (by decide) (by decide)

/-- C2 (corrected): `verify` reads the wall clock inside the call (the source's
`::time::get_time()`), and the clock reading influences the result only
through the structural check: whenever the structural check agrees at two
clock values, the whole verification result agrees. -/
theorem verify_time_dependence_via_structural_only (S : Store)
    (consensus : ConsensusParams) (lvl : VerificationLevel) (blk : IndexedBlock)
    (t1 t2 : Nat)
    (h : chain_verifier_check blk consensus.network t1 =
         chain_verifier_check blk consensus.network t2) :
    verify S consensus lvl blk t1 = verify S consensus lvl blk t2 := by
  unfold verify verify_block
  rw [h]

/-- C2 witness: two calls whose clock readings differ but agree on the
structural check return the identical result. -/
theorem verify_time_dependence_witness :
    verify fxStore2 fxConsensus VerificationLevel.Full fxHappy 0 =
      verify fxStore2 fxConsensus VerificationLevel.Full fxHappy 1 :=
  verify_time_dependence_via_structural_only fxStore2 fxConsensus
    VerificationLevel.Full fxHappy 0 1 (by decide)

/-- C2 counterexample: the claim that the result never depends on a clock read
inside the verifier is false — the same call against the unchanged store
returns different results at two different clock readings (a far-future
header fails the structural timestamp bound at one reading and passes it at
the other). -/
theorem verify_clock_read_counterexample :
    verify fxStore2 fxConsensus VerificationLevel.Full fxFuture 0 ≠
      verify fxStore2 fxConsensus VerificationLevel.Full fxFuture 10000 := by
  decide

/-- C5: when origin classification of a structurally valid block returns
`KnownBlock`, `verify` hits the `unreachable!()` arm — a loud abort — and in
particular never reports the situation as an ordinary validation `Error`. -/
theorem known_block_panics (S : Store) (consensus : ConsensusParams)
    (lvl : VerificationLevel) (blk : IndexedBlock) (now : Nat)
    (hl : lvl ≠ VerificationLevel.NoVerification)
    (hs : chain_verifier_check blk consensus.network now = Except.ok ())
    (ht : check_tip S = true)
    (ho : block_origin S blk.hash blk.header = Except.ok BlockOrigin.KnownBlock) :
    (verify S consensus lvl blk now).1 = VOutcome.panic ∧
    ∀ e : Error, (verify S consensus lvl blk now).1 ≠ VOutcome.err e := by
  unfold verify verify_block
  simp only [if_neg hl, hs, ht, ho, if_true]
  exact ⟨by trivial, fun e h => by simp at h⟩

/-- C5 witness: re-verifying a block that is already stored (the genesis block
itself) aborts rather than returning an error. -/
theorem known_block_panics_witness :
    (verify fxStore fxConsensus VerificationLevel.Full fxGenesis 5).1 = VOutcome.panic ∧
    (verify fxStore fxConsensus VerificationLevel.Full fxGenesis 5).1 ≠
      VOutcome.err Error.Empty :=
  ⟨(known_block_panics fxStore fxConsensus VerificationLevel.Full fxGenesis 5
      (by decide) (by decide) (by decide) (by decide)).1,
   (known_block_panics fxStore fxConsensus VerificationLevel.Full fxGenesis 5
      (by decide) (by decide) (by decide) (by decide)).2 Error.Empty⟩

/-- C1 (corrected): for levels other than `NoVerification`, whenever origin
classification runs, the best-tip consistency assertion has run right before
it; and whenever verification returns success, the assertion has been
re-asserted after contextual acceptance as the final step.  (On acceptance
failure the error is returned immediately, without the re-assertion — see the
counterexample.) -/
lemma after_accept_spec (S : Store) (r : Except Error Unit) :
    (after_accept S r).2.take 2 = [Event.structural_check, Event.assert_tip] ∧
    ((after_accept S r).1 = VOutcome.ok →
      (after_accept S r).2 =
        [Event.structural_check, Event.assert_tip, Event.classify_origin,
         Event.accept, Event.assert_tip]) := by
  unfold after_accept
  cases r with
  | error e => exact ⟨rfl, fun h => by simp at h⟩
  | ok u => exact ⟨rfl, fun _ => rfl⟩

theorem verify_tip_assertions (S : Store) (consensus : ConsensusParams)
    (lvl : VerificationLevel) (blk : IndexedBlock) (now : Nat)
    (hl : lvl ≠ VerificationLevel.NoVerification) :
    (Event.classify_origin ∈ (verify S consensus lvl blk now).2 →
      (verify S consensus lvl blk now).2.take 2 =
        [Event.structural_check, Event.assert_tip]) ∧
    ((verify S consensus lvl blk now).1 = VOutcome.ok →
      (verify S consensus lvl blk now).2 =
        [Event.structural_check, Event.assert_tip, Event.classify_origin,
         Event.accept, Event.assert_tip]) := by
  unfold verify verify_block
  rw [if_neg hl]
  split
  · exact ⟨fun h => by simp at h, fun h => by simp at h⟩
  · split
    · split
      · exact ⟨fun _ => rfl, fun h => by simp at h⟩
      · exact ⟨fun _ => rfl, fun h => by simp at h⟩
      · exact ⟨fun _ => (after_accept_spec S _).1, (after_accept_spec S _).2⟩
      · exact ⟨fun _ => (after_accept_spec S _).1, (after_accept_spec S _).2⟩
      · exact ⟨fun _ => (after_accept_spec S _).1, (after_accept_spec S _).2⟩
    · exact ⟨fun h => by simp at h, fun h => by simp at h⟩

/-- C1 witness: a fully successful verification runs the structural check, the
pre-classification assertion, classification, acceptance, and the closing
assertion, in that order. -/
theorem verify_tip_assertions_witness :
    (verify fxStore2 fxConsensus VerificationLevel.Full fxHappy 0).2 =
      [Event.structural_check, Event.assert_tip, Event.classify_origin,
       Event.accept, Event.assert_tip] :=
  (verify_tip_assertions fxStore2 fxConsensus VerificationLevel.Full fxHappy 0
    (by decide)).2 (by decide)

/-- C1 counterexample: when contextual acceptance fails (here with the
source's coinbase-maturity scenario, `Error::Transaction(1, Maturity)`), the
acceptance step ran but the best-tip assertion was performed only once — the
pre-classification one — and the trace does not end with a re-assertion, so
the invariant is not re-asserted "regardless of whether acceptance succeeded
or failed". -/
theorem verify_missing_reassert_counterexample :
    (verify fxStore2 fxConsensus VerificationLevel.Full fxMature 0).1 =
      VOutcome.err (Error.Transaction 1 TransactionError.Maturity) ∧
    Event.accept ∈ (verify fxStore2 fxConsensus VerificationLevel.Full fxMature 0).2 ∧
    (verify fxStore2 fxConsensus VerificationLevel.Full fxMature 0).2.count
      Event.assert_tip = 1 ∧
    (verify fxStore2 fxConsensus VerificationLevel.Full fxMature 0).2.getLast? ≠
      some Event.assert_tip := by
  decide

/-- C9 (corrected): provided the block passes structural verification, is not
already known, and the tip assertion holds, a block whose parent is absent
from the store makes `verify` fail with the unknown-parent store error,
propagated unchanged from origin classification and terminal for the call
(nothing runs after classification). -/
theorem unknown_parent_propagates (S : Store) (consensus : ConsensusParams)
    (lvl : VerificationLevel) (blk : IndexedBlock) (now : Nat)
    (hl : lvl ≠ VerificationLevel.NoVerification)
    (hs : chain_verifier_check blk consensus.network now = Except.ok ())
    (ht : check_tip S = true)
    (ho : block_origin S blk.hash blk.header =
      Except.error (Error.Database DBError.UnknownParent)) :
    verify S consensus lvl blk now =
      (VOutcome.err (Error.Database DBError.UnknownParent),
       [Event.structural_check, Event.assert_tip, Event.classify_origin]) := by
  unfold verify verify_block
  simp only [if_neg hl, hs, ht, ho, if_true]

/-- C9 witness: the source's `verify_orphan` scenario — a structurally valid
block whose parent is absent fails with `Error::Database(UnknownParent)`. -/
theorem unknown_parent_propagates_witness :
    verify fxStore2 fxConsensus VerificationLevel.Full fxOrphan 0 =
      (VOutcome.err (Error.Database DBError.UnknownParent),
       [Event.structural_check, Event.assert_tip, Event.classify_origin]) :=
  unknown_parent_propagates fxStore2 fxConsensus VerificationLevel.Full fxOrphan 0
    (by decide) (by decide) (by decide) (by decide)

/-- C9 counterexample: a block whose parent is absent from the store but which
fails structural verification returns the structural error, not the
unknown-parent store error — the claim does not hold for every block with an
absent parent. -/
theorem unknown_parent_counterexample :
    block_origin fxStore2 fxOrphanBad.hash fxOrphanBad.header =
      Except.error (Error.Database DBError.UnknownParent) ∧
    (verify fxStore2 fxConsensus VerificationLevel.Full fxOrphanBad 0).1 ≠
      VOutcome.err (Error.Database DBError.UnknownParent) ∧
    (verify fxStore2 fxConsensus VerificationLevel.Full fxOrphanBad 0).1 =
      VOutcome.err Error.Empty := by
  decide

/-- C8: `verify_mempool_transaction` resolves the deployment snapshot for the
height, fails fast with the structural verifier's error when structural
verification rejects, and otherwise returns the contextual acceptor's result
computed with the resolver made of the caller's prevout provider layered over
the no-op store, the snapshot, and the given height and time; moreover the
no-op secondary layer never contributes (the layered resolver equals the
caller's provider). -/
theorem mempool_verification_pipeline (S : Store) (consensus : ConsensusParams)
    (hp : Nat → Option BlockHeader)
    (prevout : OutPoint → Option TransactionOutput) (height time : Nat)
    (tx : Transaction) :
    (∀ e, mempool_tx_verifier_check tx consensus
        (block_deployments height hp consensus) = Except.error e →
      verify_mempool_transaction S consensus hp prevout height time tx =
        Except.error e) ∧
    (mempool_tx_verifier_check tx consensus
        (block_deployments height hp consensus) = Except.ok () →
      verify_mempool_transaction S consensus hp prevout height time tx =
        mempool_tx_acceptor_check (Store.meta_provider S)
          (duplex_output_provider prevout noop_store) consensus tx height time
          (block_deployments height hp consensus)) ∧
    duplex_output_provider prevout noop_store = prevout := by
  refine ⟨?_, ?_, ?_⟩
  · intro e he
    simp only [verify_mempool_transaction]
    rw [he]
  · intro h
    simp only [verify_mempool_transaction]
    rw [h]
  · funext op
    unfold duplex_output_provider noop_store
    cases prevout op <;> rfl

/-- C8 witness: at a concrete structurally valid transaction the pipeline
returns exactly the acceptor's result over the layered resolver. -/
theorem mempool_verification_pipeline_witness :
    verify_mempool_transaction fxStore2 fxConsensus
        (Store.header_provider fxStore2) fxPrev 1 0 fxTx =
      mempool_tx_acceptor_check (Store.meta_provider fxStore2)
        (duplex_output_provider fxPrev noop_store) fxConsensus fxTx 1 0
        (block_deployments 1 (Store.header_provider fxStore2) fxConsensus) :=
  (mempool_verification_pipeline fxStore2 fxConsensus
    (Store.header_provider fxStore2) fxPrev 1 0 fxTx).2.1 (by decide)


lemma tx_accept_check_ok {view : StoreView} {blk : IndexedBlock} {height j : Nat}
    {tx : Transaction} (hj : txAt blk j = some tx)
    (hr : resolvesAt view blk height j = true)
    (hm : matureAt view blk height j = true)
    (hb : balancedAt view blk height j = true) :
    tx_accept_check view blk height j tx = Except.ok () := by
  unfold resolvesAt at hr
  unfold matureAt at hm
  unfold balancedAt at hb
  rw [hj] at hr hm hb
  simp only [Option.isSome_iff_exists] at hr
  obtain ⟨utxos, hres⟩ := hr
  simp only [hres] at hm hb
  simp only [Bool.not_eq_true'] at hm
  unfold tx_accept_check
  simp only [hres, hm, Bool.false_eq_true, if_false]
  rw [if_neg (Nat.not_lt.mpr (of_decide_eq_true hb))]

lemma tx_accept_check_overspend {view : StoreView} {blk : IndexedBlock}
    {height j : Nat} {tx : Transaction} (hj : txAt blk j = some tx)
    (hr : resolvesAt view blk height j = true)
    (hm : matureAt view blk height j = true)
    (hb : balancedAt view blk height j = false) :
    tx_accept_check view blk height j tx =
      Except.error (Error.Transaction j TransactionError.Overspend) := by
  unfold resolvesAt at hr
  unfold matureAt at hm
  unfold balancedAt at hb
  rw [hj] at hr hm hb
  simp only [Option.isSome_iff_exists] at hr
  obtain ⟨utxos, hres⟩ := hr
  simp only [hres] at hm hb
  simp only [Bool.not_eq_true'] at hm
  unfold tx_accept_check
  simp only [hres, hm, Bool.false_eq_true, if_false]
  rw [if_pos (Nat.lt_of_not_le (of_decide_eq_false hb))]

lemma sigopsSum_cons (tx : Transaction) (r : List Transaction) :
    sigopsSum (tx :: r) = tx_sigops tx + sigopsSum r := by
  unfold sigopsSum
  rw [List.map_cons, List.sum_cons]

lemma accept_txs_all_ok (view : StoreView) (blk : IndexedBlock) (height maxS : Nat)
    (hyp : ∀ j, j < blk.transactions.length → 1 ≤ j →
      resolvesAt view blk height j = true ∧ matureAt view blk height j = true ∧
      balancedAt view blk height j = true) :
    ∀ (rest : List Transaction) (i s : Nat),
      blk.transactions.drop i = rest →
      s + sigopsSum rest ≤ maxS →
      accept_txs view blk height maxS i s rest = Except.ok () := by
  intro rest
  induction rest with
  | nil => intro i s _ _; rfl
  | cons tx r2 ih =>
    intro i s hdrop hsig
    have hget : blk.transactions.get? i = some tx := by
      have h0 := List.get?_drop blk.transactions i 0
      rw [hdrop] at h0
      simpa using h0.symm
    have hilen : i < blk.transactions.length := by
      by_contra hc
      push_neg at hc
      rw [List.get?_eq_none.mpr hc] at hget
      cases hget
    have hdrop2 : blk.transactions.drop (i + 1) = r2 := by
      have h2 : (blk.transactions.drop i).drop 1 = blk.transactions.drop (i + 1) :=
        List.drop_drop 1 i blk.transactions
      rw [hdrop] at h2
      simpa using h2.symm
    rw [sigopsSum_cons] at hsig
    have hs2 : ¬ (maxS < s + tx_sigops tx) := by omega
    by_cases hi : i = 0
    · subst hi
      simp only [accept_txs, if_pos rfl]
      rw [if_neg hs2]
      exact ih 1 (s + tx_sigops tx) hdrop2 (by omega)
    · have h1le : 1 ≤ i := Nat.one_le_iff_ne_zero.mpr hi
      obtain ⟨hr, hm, hb⟩ := hyp i hilen h1le
      have hok := tx_accept_check_ok hget hr hm hb
      simp only [accept_txs, if_neg hi, hok]
      rw [if_neg hs2]
      exact ih (i + 1) (s + tx_sigops tx) hdrop2 (by omega)

lemma accept_txs_first_overspend (view : StoreView) (blk : IndexedBlock)
    (height maxS i0 : Nat) (h1 : 1 ≤ i0) (hlen : i0 < blk.transactions.length)
    (hres : ∀ j, j < blk.transactions.length → 1 ≤ j →
      resolvesAt view blk height j = true)
    (hmat : ∀ j, j < blk.transactions.length → 1 ≤ j →
      matureAt view blk height j = true)
    (hbal : ∀ j, j < i0 → 1 ≤ j → balancedAt view blk height j = true)
    (hb0 : balancedAt view blk height i0 = false) :
    ∀ (rest : List Transaction) (i s : Nat),
      blk.transactions.drop i = rest → i ≤ i0 →
      s + sigopsSum rest ≤ maxS →
      accept_txs view blk height maxS i s rest =
        Except.error (Error.Transaction i0 TransactionError.Overspend) := by
  intro rest
  induction rest with
  | nil =>
    intro i s hdrop hle _
    exfalso
    have hx : blk.transactions.length ≤ i := List.drop_eq_nil_iff_le.mp hdrop
    omega
  | cons tx r2 ih =>
    intro i s hdrop hle hsig
    have hget : blk.transactions.get? i = some tx := by
      have h0 := List.get?_drop blk.transactions i 0
      rw [hdrop] at h0
      simpa using h0.symm
    have hilen : i < blk.transactions.length := by
      by_contra hc
      push_neg at hc
      rw [List.get?_eq_none.mpr hc] at hget
      cases hget
    have hdrop2 : blk.transactions.drop (i + 1) = r2 := by
      have h2 : (blk.transactions.drop i).drop 1 = blk.transactions.drop (i + 1) :=
        List.drop_drop 1 i blk.transactions
      rw [hdrop] at h2
      simpa using h2.symm
    rw [sigopsSum_cons] at hsig
    have hs2 : ¬ (maxS < s + tx_sigops tx) := by omega
    by_cases hii : i = i0
    · subst hii
      have hne : ¬ (i = 0) := by omega
      have herr := tx_accept_check_overspend hget (hres i hilen h1) (hmat i hilen h1) hb0
      simp only [accept_txs, if_neg hne, herr]
    · have hlt : i < i0 := lt_of_le_of_ne hle hii
      by_cases hi : i = 0
      · subst hi
        simp only [accept_txs, if_pos rfl]
        rw [if_neg hs2]
        exact ih 1 (s + tx_sigops tx) hdrop2 (by omega) (by omega)
      · have h1le : 1 ≤ i := Nat.one_le_iff_ne_zero.mpr hi
        have hok := tx_accept_check_ok hget (hres i hilen h1le) (hmat i hilen h1le)
          (hbal i hlt h1le)
        simp only [accept_txs, if_neg hi, hok]
        rw [if_neg hs2]
        exact ih (i + 1) (s + tx_sigops tx) hdrop2 (by omega) (by omega)

/-- C7: for a candidate block whose transactions (the coinbase apart) all
resolve, spend no immature coinbase, and stay within the sigop cap: if every
transaction's total outputs are at most its total resolved inputs — inputs
resolved first against earlier transactions of the same block, then against
the store view — the block's per-transaction spend checks succeed; and if
some transaction's outputs exceed its resolved inputs, acceptance fails with
`Overspend` carrying the index of the first offending transaction in block
order. -/
theorem same_block_spend_checks (view : StoreView) (consensus : ConsensusParams)
    (lvl : VerificationLevel) (blk : IndexedBlock) (height : Nat)
    (d : BlockDeployments)
    (hres : ∀ j, j < blk.transactions.length → 1 ≤ j →
      resolvesAt view blk height j = true)
    (hmat : ∀ j, j < blk.transactions.length → 1 ≤ j →
      matureAt view blk height j = true)
    (hsig : sigopsSum blk.transactions ≤ max_block_sigops) :
    ((∀ j, j < blk.transactions.length → 1 ≤ j →
        balancedAt view blk height j = true) →
      accept_txs view blk height max_block_sigops 0 0 blk.transactions =
        Except.ok ()) ∧
    (∀ i0, 1 ≤ i0 → i0 < blk.transactions.length →
      (∀ j, j < i0 → 1 ≤ j → balancedAt view blk height j = true) →
      balancedAt view blk height i0 = false →
      chain_acceptor_check view consensus lvl blk height d =
        Except.error (Error.Transaction i0 TransactionError.Overspend)) := by
  constructor
  · intro hbal
    exact accept_txs_all_ok view blk height max_block_sigops
      (fun j hj hj1 => ⟨hres j hj hj1, hmat j hj hj1, hbal j hj hj1⟩)
      blk.transactions 0 0 rfl (by simpa using hsig)
  · intro i0 h1 hlen hbal hb0
    have herr := accept_txs_first_overspend view blk height max_block_sigops i0 h1
      hlen hres hmat hbal hb0 blk.transactions 0 0 rfl (by omega)
      (by simpa using hsig)
    unfold chain_acceptor_check
    rw [herr]

/-- C7 witness: the source's two same-block-reference test blocks — the
balanced chained spend passes the spend checks; the overspending chain fails
at index 2 with `Error::Transaction(2, Overspend)`. -/
theorem same_block_spend_checks_witness :
    accept_txs (Store.as_view fxStore2) fxHappy 1 max_block_sigops 0 0
        fxHappy.transactions = Except.ok () ∧
    chain_acceptor_check (Store.as_view fxStore2) fxConsensus
        VerificationLevel.Full fxOver 1
        (block_deployments 1 (Store.header_provider fxStore2) fxConsensus) =
      Except.error (Error.Transaction 2 TransactionError.Overspend) :=
  ⟨(same_block_spend_checks (Store.as_view fxStore2) fxConsensus
      VerificationLevel.Full fxHappy 1
      (block_deployments 1 (Store.header_provider fxStore2) fxConsensus)
      (by decide) (by decide) (by decide)).1 (by decide),
   (same_block_spend_checks (Store.as_view fxStore2) fxConsensus
      VerificationLevel.Full fxOver 1
      (block_deployments 1 (Store.header_provider fxStore2) fxConsensus)
      (by decide) (by decide) (by decide)).2 2 (by decide) (by decide)
      (by decide) (by decide)⟩
